import Mathlib

/-
Shallow embedding of the CardsAPI repository (app/crud/monster_card.py,
app/crud/player.py, app/models/*, app/schemas/*, app/config.py) and proofs
about its CRUD, listing, and rendering behaviour.

Conventions of the embedding:
* SQLAlchemy sessions become explicit pure state (`CardDB`, `PlayerDB`,
  `FileSystem`); `db.commit()` becomes a check of the relevant database
  constraints (unique name, foreign key) followed by a functional update.
* Python exceptions become an `ApiError` value in `Except` (or a pair of
  state and `Except` where the code mutates state before raising).
* Machine strings are Lean `String`s; Python `str.capitalize`, `str.lower`,
  `str.replace(' ', '_')` and PostgreSQL `ILIKE` are translated explicitly
  below (ASCII case mapping, which is what the repository's data uses).
-/

/-- app/models/monster_card.py: `CardType`, a closed string enum of the 13
elemental types. -/
inductive CardType where
  | arms | dark | earth | fire | frost | light | lightning
  | magic | ore | poison | water | wind | plant
  deriving DecidableEq, Repr

/-- The `.value` of a `CardType` member (the Python enum's string value). -/
def CardType.value : CardType → String
  | .arms => "arms"
  | .dark => "dark"
  | .earth => "earth"
  | .fire => "fire"
  | .frost => "frost"
  | .light => "light"
  | .lightning => "lightning"
  | .magic => "magic"
  | .ore => "ore"
  | .poison => "poison"
  | .water => "water"
  | .wind => "wind"
  | .plant => "plant"

/-- app/models/player.py: `TeamType`, a string enum whose `_missing_` hook
coerces any invalid value to `neutral`. -/
inductive TeamType where
  | bull | owl | swordfish | neutral
  deriving DecidableEq, Repr

/-- Modelled from the spec: `DisplayType` is imported by the routers and the
card CRUD module from `app.models.monster_card`, but its definition is not
among the given sources.  The spec fixes it as the closed set of display
variants naming a template file: normal, sunlight, moonlight, twilight. -/
inductive DisplayType where
  | normal | sunlight | moonlight | twilight
  deriving DecidableEq, Repr

/-- app/models/monster_card.py: one row of the `monster_cards` table.
`secondary_type` is a nullable column, hence `Option`; the four stats are
non-negative (schema `ge=0` plus DB check constraints), hence `Nat`. -/
structure MonsterCard where
  id : Nat
  name : String
  description : Option String
  primary_type : CardType
  secondary_type : Option CardType
  health : Nat
  attack : Nat
  defense : Nat
  speed : Nat
  deriving DecidableEq, Repr

/-- app/models/player.py: one row of the `players` table.  `team` is a
nullable column with Python-side default `TeamType.neutral`;
`monster_card_id` is a nullable foreign key into `monster_cards`. -/
structure Player where
  id : Nat
  name : String
  team : Option TeamType
  monster_card_id : Option Nat
  deriving DecidableEq, Repr

/-- app/schemas/monster_card.py: `MonsterCardCreate`, the validated creation
payload (name 1..255 chars, stats ≥ 0 are enforced by pydantic before the
CRUD layer runs; the claims below do not depend on those bounds). -/
structure MonsterCardCreate where
  name : String
  description : Option String
  primary_type : CardType
  secondary_type : Option CardType
  health : Nat
  attack : Nat
  defense : Nat
  speed : Nat
  deriving DecidableEq, Repr

/-- app/schemas/player.py: `PlayerCreate` (`team` is a required field of the
schema, `monster_card_id` is optional with default `None`). -/
structure PlayerCreate where
  name : String
  team : TeamType
  monster_card_id : Option Nat
  deriving DecidableEq, Repr

/-- The state of the `monster_cards` table: the stored rows plus the next
value of the autoincrement primary key. -/
structure CardDB where
  cards : List MonsterCard
  nextId : Nat
  deriving DecidableEq, Repr

/-- The state of the `players` table. -/
structure PlayerDB where
  players : List Player
  nextId : Nat
  deriving DecidableEq, Repr

/-- The errors the embedded operations can surface.  `httpException s` is
fastapi's `HTTPException(status_code=s)`; `duplicateName` / `notFound` are
the module-level domain errors; `integrityError` is an uncaught or
re-raised `sqlalchemy.exc.IntegrityError`; `pyNameError` is Python's
`NameError` (evaluation of an unbound variable); `valueError` is the
`ValueError` raised by the image normalizer; `attributeError` is Python's
`AttributeError` (attribute access on `None`). -/
inductive ApiError where
  | httpException (status : Nat)
  | duplicateName
  | notFound
  | integrityError
  | pyNameError
  | valueError
  | attributeError
  deriving DecidableEq, Repr

/-- app/crud/monster_card.py `get_card`: `SELECT ... WHERE id = card_id`,
`scalar_one_or_none()`.  Primary keys are unique, so the first match is the
unique match. -/
def get_card (db : CardDB) (card_id : Nat) : Option MonsterCard :=
  db.cards.find? (fun c => c.id == card_id)

/-- app/crud/monster_card.py `get_card_by_name`: exact-match lookup by the
unique `name` column. -/
def get_card_by_name (db : CardDB) (name : String) : Option MonsterCard :=
  db.cards.find? (fun c => c.name == name)

/-- app/crud/monster_card.py `create_card`.
`secondary = data.secondary_type or data.primary_type` (Python `or`: every
`CardType` member is truthy, so this is exactly `getD`); the row is added
and committed; a unique-name violation makes `db.commit()` raise
`IntegrityError`, which the blanket `except Exception` turns into
`HTTPException(status_code=400)`. -/
def create_card (db : CardDB) (data : MonsterCardCreate) :
    Except ApiError (CardDB × MonsterCard) :=
  let secondary := data.secondary_type.getD data.primary_type
  let card : MonsterCard :=
    { id := db.nextId
      name := data.name
      description := data.description
      primary_type := data.primary_type
      secondary_type := some secondary
      health := data.health
      attack := data.attack
      defense := data.defense
      speed := data.speed }
  if db.cards.any (fun c => c.name == data.name) then
    Except.error (ApiError.httpException 400)
  else
    Except.ok ({ cards := db.cards ++ [card], nextId := db.nextId + 1 }, card)

/-- A Python value as it can appear in a PATCH body after
`payload.model_dump(exclude_unset=True)`: `None`, a string, a non-negative
integer (the stat fields are validated `ge=0`), a `CardType` or a
`TeamType` member. -/
inductive PyValue where
  | none
  | str (s : String)
  | int (n : Nat)
  | ctype (t : CardType)
  | team (t : TeamType)
  deriving DecidableEq, Repr

/-- A Python dict is embedded as an association list; dict keys are unique,
which theorems record as `(patch.map Prod.fst).Nodup`. -/
abbrev Patch := List (String × PyValue)

/-- `d.get(k)` on an embedded dict: `Option.none` when the key is absent. -/
def dictGet (d : Patch) (k : String) : Option PyValue :=
  (d.find? (fun kv => kv.1 == k)).map (fun kv => kv.2)

/-- app/crud/monster_card.py `_UPDATABLE_FIELDS`. -/
def UPDATABLE_FIELDS : List String :=
  ["name", "description", "primary_type", "secondary_type",
   "health", "attack", "defense", "speed"]

/-- `setattr(card, "name", v)`.  The embedding types the row, so a value of
the wrong Python type for the column (rejected at commit by the NOT NULL /
enum / integer column constraints, and never produced by the router's
`MonsterCardUpdate` schema) leaves the field unchanged; theorems restrict
patches to the router-reachable shapes via `typedCardEntry`. -/
def setCardName (c : MonsterCard) : PyValue → MonsterCard
  | .str s => { c with name := s }
  | _ => c

def setCardDescription (c : MonsterCard) : PyValue → MonsterCard
  | .str s => { c with description := some s }
  | .none => { c with description := none }
  | _ => c

def setCardPrimary (c : MonsterCard) : PyValue → MonsterCard
  | .ctype t => { c with primary_type := t }
  | _ => c

def setCardSecondary (c : MonsterCard) : PyValue → MonsterCard
  | .ctype t => { c with secondary_type := some t }
  | .none => { c with secondary_type := none }
  | _ => c

def setCardHealth (c : MonsterCard) : PyValue → MonsterCard
  | .int n => { c with health := n }
  | _ => c

def setCardAttack (c : MonsterCard) : PyValue → MonsterCard
  | .int n => { c with attack := n }
  | _ => c

def setCardDefense (c : MonsterCard) : PyValue → MonsterCard
  | .int n => { c with defense := n }
  | _ => c

def setCardSpeed (c : MonsterCard) : PyValue → MonsterCard
  | .int n => { c with speed := n }
  | _ => c

/-- One iteration of `for field, value in clean.items(): setattr(card, field, value)`. -/
def applyCardField (c : MonsterCard) (kv : String × PyValue) : MonsterCard :=
  if kv.1 = "name" then setCardName c kv.2
  else if kv.1 = "description" then setCardDescription c kv.2
  else if kv.1 = "primary_type" then setCardPrimary c kv.2
  else if kv.1 = "secondary_type" then setCardSecondary c kv.2
  else if kv.1 = "health" then setCardHealth c kv.2
  else if kv.1 = "attack" then setCardAttack c kv.2
  else if kv.1 = "defense" then setCardDefense c kv.2
  else if kv.1 = "speed" then setCardSpeed c kv.2
  else c

/-- The value shapes the router's `MonsterCardUpdate` schema can put into a
patch for each recognized key (unrecognized keys are unconstrained: the
CRUD layer drops them without looking at the value). -/
def typedCardEntry : String × PyValue → Bool := fun kv =>
  if kv.1 = "name" then (match kv.2 with | .str _ => true | _ => false)
  else if kv.1 = "description" then
    (match kv.2 with | .str _ => true | .none => true | _ => false)
  else if kv.1 = "primary_type" then
    (match kv.2 with | .ctype _ => true | _ => false)
  else if kv.1 = "secondary_type" then
    (match kv.2 with | .ctype _ => true | .none => true | _ => false)
  else if kv.1 = "health" ∨ kv.1 = "attack" ∨ kv.1 = "defense" ∨ kv.1 = "speed" then
    (match kv.2 with | .int _ => true | _ => false)
  else true

/-- The auto-fill test of `update_card`:
`"primary_type" in clean and ("secondary_type" not in clean or clean.get("secondary_type") is None)`.
Note Python's `clean.get(k) is None` is true both when the key is absent and
when it maps to `None`. -/
def autoFillCond (clean : Patch) : Bool :=
  decide ("primary_type" ∈ clean.map Prod.fst) &&
    (!decide ("secondary_type" ∈ clean.map Prod.fst) ||
      (match dictGet clean "secondary_type" with
        | Option.none => true
        | some PyValue.none => true
        | _ => false))

/-- The `clean` dict of `update_card`:
`{k: v for k, v in updates.items() if k in _UPDATABLE_FIELDS}`. -/
def cleanCardPatch (updates : Patch) : Patch :=
  updates.filter (fun kv => decide (kv.1 ∈ UPDATABLE_FIELDS))

/-- The in-memory card produced by `update_card`'s setattr loop followed by
the secondary-type auto-fill, before the commit. -/
def patchedCard (card : MonsterCard) (updates : Patch) : MonsterCard :=
  let clean := cleanCardPatch updates
  let card1 := clean.foldl applyCardField card
  if autoFillCond clean then
    { card1 with secondary_type := some card1.primary_type }
  else card1

/-- app/crud/monster_card.py `update_card`.
Looks the card up (`NotFoundError` when absent), keeps only
`_UPDATABLE_FIELDS` keys, applies them with `setattr`, auto-fills
`secondary_type` when `autoFillCond` holds, then commits.  A unique-name
violation at commit raises `IntegrityError`, which the handler converts to
`DuplicateNameError` when the patch contained `"name"` and re-raises
otherwise; rollback leaves the table unchanged. -/
def update_card (db : CardDB) (card_id : Nat) (updates : Patch) :
    Except ApiError (CardDB × MonsterCard) :=
  match get_card db card_id with
  | Option.none => Except.error ApiError.notFound
  | some card =>
    let card2 := patchedCard card updates
    if db.cards.any (fun c => c.id != card_id && c.name == card2.name) then
      if "name" ∈ (cleanCardPatch updates).map Prod.fst then
        Except.error ApiError.duplicateName
      else Except.error ApiError.integrityError
    else
      Except.ok
        ({ db with cards := db.cards.map (fun c => if c.id = card_id then card2 else c) },
          card2)

/-- `likeAny f s` holds when `f` accepts some suffix of `s` (the search a
`%` wildcard performs). -/
def likeAny (f : List Char → Bool) : List Char → Bool
  | [] => f []
  | c :: s => f (c :: s) || likeAny f s

/-- PostgreSQL `LIKE` pattern matching over characters: `%` matches any
sequence (some suffix of the rest must match the rest of the pattern), `_`
matches any single character, backslash (the default escape character)
makes the next pattern character literal.  A pattern ending in a lone
backslash is a PostgreSQL error; the patterns built by `list_cards` always
end in `%`, so that case is mapped to a non-match. -/
def likeMatch : List Char → List Char → Bool
  | [], s => s.isEmpty
  | '%' :: ps, s => likeAny (likeMatch ps) s
  | '_' :: _, [] => false
  | '_' :: ps, _ :: s => likeMatch ps s
  | '\\' :: p :: ps, c :: s => p == c && likeMatch ps s
  | '\\' :: _ :: _, [] => false
  | ['\\'], _ => false
  | p :: ps, c :: s => p == c && likeMatch ps s
  | _ :: _, [] => false

/-- Python `str.lower()` / SQL `lower()` on this repository's ASCII data:
character-wise lower-casing. -/
def pyLower (s : String) : String :=
  String.mk (s.data.map Char.toLower)

/-- `MonsterCard.name.ilike(f"%{name_search}%")`: `ILIKE` lower-cases both
the pattern and the candidate (ASCII case map for this repository's data)
and then runs `LIKE`. -/
def ilikeTest (term name : String) : Bool :=
  likeMatch ('%' :: (pyLower term).data ++ ['%']) (pyLower name).data

/-- The conjunction of the WHERE clauses `list_cards` attaches to its
SELECT: exact `primary_type` match, exact `secondary_type` match, and the
`ILIKE` name clause.  `if name_search:` is Python truthiness, so an empty
`name_search` adds no clause. -/
def passesFilters (pt st : Option CardType) (ns : Option String)
    (c : MonsterCard) : Bool :=
  (match pt with
    | Option.none => true
    | some t => decide (c.primary_type = t)) &&
  (match st with
    | Option.none => true
    | some t => decide (c.secondary_type = some t)) &&
  (match ns with
    | Option.none => true
    | some s => if s.isEmpty then true else ilikeTest s c.name)

/-- Insertion step of `ORDER BY monster_cards.id` (ascending). -/
def insertById (c : MonsterCard) : List MonsterCard → List MonsterCard
  | [] => [c]
  | d :: ds => if c.id ≤ d.id then c :: d :: ds else d :: insertById c ds

/-- `ORDER BY monster_cards.id`: the stored rows sorted by ascending id.
Row ids are unique (primary key), so any sorting algorithm produces the
same list; insertion sort keeps the embedding executable. -/
def orderById : List MonsterCard → List MonsterCard
  | [] => []
  | c :: cs => insertById c (orderById cs)

/-- app/crud/monster_card.py `list_cards`.  The generative statement is
`SELECT ... ORDER BY id LIMIT limit OFFSET offset` with the WHERE clauses
appended afterwards; SQL evaluates FROM → WHERE → ORDER BY → OFFSET →
LIMIT regardless of the order the builder methods were called in. -/
def list_cards (db : CardDB) (limit offset : Nat)
    (primary_type secondary_type : Option CardType)
    (name_search : Option String) : List MonsterCard :=
  (((orderById (db.cards.filter (passesFilters primary_type secondary_type name_search))).drop
      offset).take limit)

/-- app/config.py `PUBLIC_ASSETS_BASE_URL`. -/
def PUBLIC_ASSETS_BASE_URL : String := "/assets"

/-- app/config.py `PUBLIC_MONSTER_IMAGES_URL`. -/
def PUBLIC_MONSTER_IMAGES_URL : String :=
  PUBLIC_ASSETS_BASE_URL ++ "/monster_cards/monster_card_images"

/-- app/config.py `PUBLIC_TYPE_ICONS_URL`. -/
def PUBLIC_TYPE_ICONS_URL : String :=
  PUBLIC_ASSETS_BASE_URL ++ "/monster_cards/types_icons"

/-- app/config.py `MONSTER_CARD_IMAGES_DIR`.  On disk this is
`BASE_DIR/assets/monster_cards/monster_card_images`; `BASE_DIR` is where the
checkout lives, so the embedding keeps the deployment-independent suffix. -/
def MONSTER_CARD_IMAGES_DIR : String :=
  "assets/monster_cards/monster_card_images"

/-- Python `str.capitalize()`: first character upper-cased (ASCII case map),
all remaining characters LOWER-cased. -/
def pyCapitalize (s : String) : String :=
  match s.data with
  | [] => ""
  | c :: cs => String.mk (c.toUpper :: cs.map Char.toLower)

/-- Python `.replace(' ', '_')`: replacing a one-character substring is a
character-by-character map. -/
def underscoreSpaces (s : String) : String :=
  String.mk (s.data.map (fun c => if c = ' ' then '_' else c))

/-- The derived image file name of `display_monster_card`:
`f"{card.name.capitalize().replace(' ', '_')}.png"`. -/
def monster_filename (name : String) : String :=
  underscoreSpaces (pyCapitalize name) ++ ".png"

/-- `MONSTER_CARD_IMAGES_DIR / monster_filename` (pathlib `/` join). -/
def monster_image_disk_path (name : String) : String :=
  MONSTER_CARD_IMAGES_DIR ++ "/" ++ monster_filename name

/-- `f"{PUBLIC_MONSTER_IMAGES_URL}/{monster_filename}"`. -/
def monster_image_url (name : String) : String :=
  PUBLIC_MONSTER_IMAGES_URL ++ "/" ++ monster_filename name

/-- `f"{PUBLIC_TYPE_ICONS_URL}/{t.value.lower()}_icon.png"`. -/
def type_icon_url (t : CardType) : String :=
  PUBLIC_TYPE_ICONS_URL ++ "/" ++ pyLower t.value ++ "_icon.png"

/-- An image file as PIL sees it: pixel dimensions, plus a flag for a file
`Image.open`/`resize` would fail on (which the normalizer converts to
`ValueError`). -/
structure ImageFile where
  width : Nat
  height : Nat
  corrupt : Bool
  deriving DecidableEq, Repr

/-- The asset directory: a partial map from path to image file. -/
def FileSystem := String → Option ImageFile

/-- app/crud/monster_card.py `_ensure_image_size` (the call sites pass the
default `target_size=(230, 150)`).  A missing file returns immediately; a
file PIL cannot process raises `ValueError`; a wrong-sized file is resized
and overwritten in place; a right-sized file is untouched. -/
def ensure_image_size (fs : FileSystem) (image_path : String)
    (target_size : Nat × Nat) : Except ApiError FileSystem :=
  match fs image_path with
  | Option.none => Except.ok fs
  | some img =>
    if img.corrupt then Except.error ApiError.valueError
    else if (img.width, img.height) ≠ target_size then
      Except.ok (fun p =>
        if p = image_path then
          some { img with width := target_size.1, height := target_size.2 }
        else fs p)
    else Except.ok fs

/-- First character of a Python `string.Template` identifier
(`re.ASCII` mode: `[_a-zA-Z]`). -/
def isIdStart (c : Char) : Bool :=
  (('a' ≤ c && c ≤ 'z') || ('A' ≤ c && c ≤ 'Z')) || c == '_'

/-- Later characters of a `string.Template` identifier (`[_a-zA-Z0-9]`). -/
def isIdChar (c : Char) : Bool :=
  isIdStart c || ('0' ≤ c && c ≤ '9')

/-- A non-empty, well-formed `string.Template` identifier. -/
def validIdent (l : List Char) : Bool :=
  match l with
  | [] => false
  | c :: cs => isIdStart c && cs.all isIdChar

/-- Lookup in the substitution mapping (the kwargs of `safe_substitute`). -/
def smGet (m : List (String × String)) (k : String) : Option String :=
  (m.find? (fun kv => kv.1 == k)).map (fun kv => kv.2)

/-- Python `string.Template(...).safe_substitute(mapping)` over characters.
`$$` is a literal `$`; `${ident}` and `$ident` are replaced when `ident` is
in the mapping and otherwise left exactly as written; any other `$`
(including `${` with no well-formed identifier-brace) is left verbatim and
scanning resumes right after the `$`.  `substitute` would raise on the
"invalid" and "missing key" cases; `safe_substitute` never does. -/
def safeSubstList (m : List (String × String)) : List Char → List Char
  | [] => []
  | '$' :: rest =>
    (match rest with
      | '$' :: rest2 => '$' :: safeSubstList m rest2
      | '{' :: rest2 =>
        (match hdw : rest2.dropWhile isIdChar with
          | '}' :: rest3 =>
            if validIdent (rest2.takeWhile isIdChar) then
              (match smGet m (String.mk (rest2.takeWhile isIdChar)) with
                | some v => v.data ++ safeSubstList m rest3
                | Option.none =>
                  '$' :: '{' :: (rest2.takeWhile isIdChar ++ '}' :: safeSubstList m rest3))
            else '$' :: safeSubstList m ('{' :: rest2)
          | _ => '$' :: safeSubstList m ('{' :: rest2))
      | c :: rest2 =>
        if isIdStart c then
          (match smGet m (String.mk (c :: rest2.takeWhile isIdChar)) with
            | some v => v.data ++ safeSubstList m (rest2.dropWhile isIdChar)
            | Option.none => '$' :: c :: (rest2.takeWhile isIdChar ++
                safeSubstList m (rest2.dropWhile isIdChar)))
        else '$' :: c :: safeSubstList m rest2
      | [] => ['$'])
  | c :: rest => c :: safeSubstList m rest
termination_by l => l.length
decreasing_by
  all_goals
    first
      | (simp only [List.length_cons]; omega)
      | (have hle := (List.dropWhile_sublist (p := isIdChar) (l := rest2)).length_le
         first
           | (simp only [List.length_cons]; omega)
           | (rw [hdw] at hle; simp only [List.length_cons] at hle ⊢; omega))

/-- String wrapper for `safe_substitute`. -/
def safeSubstitute (tmpl : String) (m : List (String × String)) : String :=
  String.mk (safeSubstList m tmpl.data)

/-- The keyword arguments `display_monster_card` passes to
`safe_substitute` (with `card.secondary_type.value` already read off as
`st`; `description or ""` maps a missing description to the empty
string, and the four stats are rendered in decimal by `str()`). -/
def renderMapping (card : MonsterCard) (st : CardType) : List (String × String) :=
  [("name", card.name),
   ("description", card.description.getD ""),
   ("primary_type_image_path", type_icon_url card.primary_type),
   ("secondary_type_image_path", type_icon_url st),
   ("health", toString card.health),
   ("attack", toString card.attack),
   ("defense", toString card.defense),
   ("speed", toString card.speed),
   ("image_path", monster_image_url card.name)]

/-- app/crud/monster_card.py `display_monster_card`.  The template store
(`HTML_FORMATS_DIR / display.value`, read with `read_text`) is the external
file system, embedded as a total map from variant to template text.  After
the card lookup the code derives the image file name, runs the image
normalizer on the on-disk path (a `ValueError` from it propagates), builds
the three asset URLs — reading `card.secondary_type.value`, which on a
NULL column value is an `AttributeError` — and safe-substitutes the
template. -/
def display_monster_card (db : CardDB) (fs : FileSystem)
    (templates : DisplayType → String) (card_id : Nat) (display : DisplayType) :
    Except ApiError (FileSystem × String) :=
  match get_card db card_id with
  | Option.none => Except.error ApiError.notFound
  | some card =>
    let raw_html := templates display
    match ensure_image_size fs (monster_image_disk_path card.name) (230, 150) with
    | Except.error e => Except.error e
    | Except.ok fs1 =>
      match card.secondary_type with
      | Option.none => Except.error ApiError.attributeError
      | some st => Except.ok (fs1, safeSubstitute raw_html (renderMapping card st))

/-- Modelled from the spec: the `normal` display template file
(`assets/monster_cards/card_templates`) is not among the given sources.
Per the spec it is HTML with the named placeholders for the image URL, the
name, description, the two type-icon URLs and the four stats. -/
def normalTemplate : String :=
  "<html><body><img src=\"${image_path}\"/><h1>${name}</h1><p>${description}</p><img src=\"${primary_type_image_path}\"/><img src=\"${secondary_type_image_path}\"/><ul><li>${health}</li><li>${attack}</li><li>${defense}</li><li>${speed}</li></ul></body></html>"

/-- app/crud/player.py `get_player`. -/
def get_player (db : PlayerDB) (player_id : Nat) : Option Player :=
  db.players.find? (fun p => p.id == player_id)

/-- app/crud/player.py `get_player_by_name`. -/
def get_player_by_name (db : PlayerDB) (name : String) : Option Player :=
  db.players.find? (fun p => p.name == name)

/-- `get_card(db, player.monster_card_id)` as `create_player` calls it:
`monster_card_id` may be Python `None`, and `SELECT ... WHERE id = NULL`
matches no row, so the lookup returns `None` for a null id. -/
def get_card_opt (db : CardDB) : Option Nat → Option MonsterCard
  | Option.none => Option.none
  | some i => get_card db i

/-- app/crud/player.py `create_player`.  Builds
`Player(name=..., monster_card_id=...)` — `team` is never passed, so the
column's Python-side default `TeamType.neutral` is applied at INSERT —
then rejects the request with `HTTPException(400)` when
`get_card(db, player.monster_card_id)` is `None` (which includes a null
id), and commits; a unique-name violation at commit is turned into
`HTTPException(400)` by the blanket `except Exception`. -/
def create_player (cdb : CardDB) (pdb : PlayerDB) (data : PlayerCreate) :
    Except ApiError (PlayerDB × Player) :=
  let player : Player :=
    { id := pdb.nextId, name := data.name, team := Option.none,
      monster_card_id := data.monster_card_id }
  if (get_card_opt cdb player.monster_card_id).isNone then
    Except.error (ApiError.httpException 400)
  else if pdb.players.any (fun p => p.name == data.name) then
    Except.error (ApiError.httpException 400)
  else
    let stored := { player with team := some TeamType.neutral }
    Except.ok ({ players := pdb.players ++ [stored], nextId := pdb.nextId + 1 },
      stored)

/-- app/crud/player.py `_UPDATABLE_FIELDS`. -/
def PLAYER_UPDATABLE_FIELDS : List String :=
  ["name", "team", "monster_card_id"]

def setPlayerName (p : Player) : PyValue → Player
  | .str s => { p with name := s }
  | _ => p

def setPlayerTeam (p : Player) : PyValue → Player
  | .team t => { p with team := some t }
  | .none => { p with team := Option.none }
  | _ => p

def setPlayerCardId (p : Player) : PyValue → Player
  | .int n => { p with monster_card_id := some n }
  | .none => { p with monster_card_id := Option.none }
  | _ => p

/-- One `setattr(player, field, value)` iteration of `update_player`. -/
def applyPlayerField (p : Player) (kv : String × PyValue) : Player :=
  if kv.1 = "name" then setPlayerName p kv.2
  else if kv.1 = "team" then setPlayerTeam p kv.2
  else if kv.1 = "monster_card_id" then setPlayerCardId p kv.2
  else p

/-- The `clean` dict of `update_player`:
`{k: v for k, v in updates.items() if k in _UPDATABLE_FIELDS}`. -/
def cleanPlayerPatch (updates : Patch) : Patch :=
  updates.filter (fun kv => decide (kv.1 ∈ PLAYER_UPDATABLE_FIELDS))

/-- The in-memory player produced by `update_player`'s setattr loop, before
the commit. -/
def patchedPlayer (player : Player) (updates : Patch) : Player :=
  (cleanPlayerPatch updates).foldl applyPlayerField player

/-- app/crud/player.py `update_player`.  Looks the player up, filters the
patch to `{name, team, monster_card_id}`, applies it, and commits; an
`IntegrityError` (duplicate name, or a foreign key to a missing card) rolls
back and is re-raised.  When the commit SUCCEEDS and the patch contained
`"name"`, the next statement is
`raise DuplicateNameError(...) from e` — it sits outside the `except`
block, `e` is unbound there, and evaluating it raises `NameError`; the
committed state is kept, so the function returns the mutated table
together with an error.  The result is therefore a pair of the resulting
table state and the normal/exceptional outcome. -/
def update_player (cdb : CardDB) (pdb : PlayerDB) (player_id : Nat)
    (updates : Patch) : PlayerDB × Except ApiError Player :=
  match get_player pdb player_id with
  | Option.none => (pdb, Except.error ApiError.notFound)
  | some player =>
    let p1 := patchedPlayer player updates
    if pdb.players.any (fun q => q.id != player_id && q.name == p1.name) ||
        (match p1.monster_card_id with
          | Option.none => false
          | some i => (get_card cdb i).isNone) then
      (pdb, Except.error ApiError.integrityError)
    else
      let committed : PlayerDB :=
        { pdb with players := pdb.players.map (fun q => if q.id = player_id then p1 else q) }
      if "name" ∈ (cleanPlayerPatch updates).map Prod.fst then
        (committed, Except.error ApiError.pyNameError)
      else
        (committed, Except.ok p1)

/-- The claimed (incorrect) image file name of claim C7: first letter
capitalized, the REMAINING characters unchanged, spaces to underscores,
`.png` appended.  Written from the claim's words, to compare with the
source-derived `monster_filename`. -/
def claimedImageFilename (name : String) : String :=
  underscoreSpaces
    (match name.data with
      | [] => ""
      | c :: cs => String.mk (c.toUpper :: cs)) ++ ".png"

/-- The amended image file name: first letter capitalized and the remaining
characters lower-cased, spaces to underscores, `.png` appended.  Written
from the amended claim's words, to compare with the source-derived
`monster_filename`. -/
def amendedImageFilename (name : String) : String :=
  underscoreSpaces
    (match name.data with
      | [] => ""
      | c :: cs => String.mk (c.toUpper :: cs.map Char.toLower)) ++ ".png"

/-- The name filter exactly as claim C6 words it: a case-insensitive
substring match of `name_substring` against the card name.  Written from
the claim's words, to compare with the source-derived `ilikeTest`. -/
def claimedNameFilter (term name : String) : Bool :=
  decide ((pyLower term).data <:+: (pyLower name).data)

-- ------------------------------------------------------------------
-- Concrete fixtures used to evaluate the operations at specific inputs.
-- ------------------------------------------------------------------

/-- The spec's worked example card, as stored after creation. -/
def emberCard : MonsterCard :=
  { id := 1, name := "Embergeist", description := Option.none,
    primary_type := .fire, secondary_type := some .fire,
    health := 50, attack := 30, defense := 20, speed := 40 }

/-- The spec's worked example creation payload (no `secondary_type`). -/
def emberData : MonsterCardCreate :=
  { name := "Embergeist", description := Option.none, primary_type := .fire,
    secondary_type := Option.none, health := 50, attack := 30, defense := 20,
    speed := 40 }

/-- An empty `monster_cards` table. -/
def emptyCardDB : CardDB := { cards := [], nextId := 1 }

/-- The table holding exactly the example card. -/
def emberDB : CardDB := { cards := [emberCard], nextId := 2 }

/-- The example card after a patch `{"primary_type": "water"}`. -/
def emberWaterCard : MonsterCard :=
  { id := 1, name := "Embergeist", description := Option.none,
    primary_type := .water, secondary_type := some .water,
    health := 50, attack := 30, defense := 20, speed := 40 }

/-- The table after that patch. -/
def emberWaterDB : CardDB := { cards := [emberWaterCard], nextId := 2 }

/-- The example card after a patch `{"health": 99, "bogus": 7}`. -/
def ember99Card : MonsterCard :=
  { id := 1, name := "Embergeist", description := Option.none,
    primary_type := .fire, secondary_type := some .fire,
    health := 99, attack := 30, defense := 20, speed := 40 }

/-- The table after that patch. -/
def ember99DB : CardDB := { cards := [ember99Card], nextId := 2 }

/-- The example card after a patch `{"secondary_type": null}`: the stored
`secondary_type` column is NULL. -/
def emberNullCard : MonsterCard :=
  { id := 1, name := "Embergeist", description := Option.none,
    primary_type := .fire, secondary_type := Option.none,
    health := 50, attack := 30, defense := 20, speed := 40 }

/-- The table after that patch. -/
def emberNullDB : CardDB := { cards := [emberNullCard], nextId := 2 }

/-- An empty `players` table. -/
def emptyPlayerDB : PlayerDB := { players := [], nextId := 1 }

/-- A creation payload with a null `monster_card_id` (and a team supplied). -/
def aliceNullData : PlayerCreate :=
  { name := "Alice", team := .bull, monster_card_id := Option.none }

/-- A creation payload referencing the stored example card, with team bull. -/
def aliceBullData : PlayerCreate :=
  { name := "Alice", team := .bull, monster_card_id := some 1 }

/-- A creation payload with a dangling card reference. -/
def bobDanglingData : PlayerCreate :=
  { name := "Bob", team := .owl, monster_card_id := some 99 }

/-- The stored row `create_player` produces for `aliceBullData`: the team
column got its default, not the payload's team. -/
def alicePlayer : Player :=
  { id := 1, name := "Alice", team := some .neutral, monster_card_id := some 1 }

/-- The players table holding exactly `alicePlayer`. -/
def alicePlayerDB : PlayerDB := { players := [alicePlayer], nextId := 2 }

/-- A card whose name contains no literal "a%b" but matches the LIKE
pattern %a%b%. -/
def axxbCard : MonsterCard :=
  { id := 1, name := "axxb", description := Option.none,
    primary_type := .water, secondary_type := some .water,
    health := 10, attack := 10, defense := 10, speed := 10 }

/-- The table holding exactly `axxbCard`. -/
def axxbDB : CardDB := { cards := [axxbCard], nextId := 2 }

/-- The spec's "Firefly" example card. -/
def fireflyCard : MonsterCard :=
  { id := 1, name := "Firefly", description := Option.none,
    primary_type := .fire, secondary_type := some .fire,
    health := 10, attack := 10, defense := 10, speed := 10 }

/-- The spec's "Bonfire" example card. -/
def bonfireCard : MonsterCard :=
  { id := 2, name := "Bonfire", description := Option.none,
    primary_type := .fire, secondary_type := some .fire,
    health := 10, attack := 10, defense := 10, speed := 10 }

/-- The table holding the two fire cards. -/
def fireDB : CardDB := { cards := [fireflyCard, bonfireCard], nextId := 3 }

/-- The characters of `normalTemplate` before its `image_path` placeholder
(no `$` occurs among them). -/
def imgPathPre : List Char := "<html><body><img src=\"".data

/-- The characters of `normalTemplate` after the `image_path` placeholder's
closing brace. -/
def imgPathSuf : List Char :=
  "\"/><h1>${name}</h1><p>${description}</p><img src=\"${primary_type_image_path}\"/><img src=\"${secondary_type_image_path}\"/><ul><li>${health}</li><li>${attack}</li><li>${defense}</li><li>${speed}</li></ul></body></html>".data

-- ------------------------------------------------------------------
-- Generic lemmas about a `for field, value in clean.items(): setattr(...)`
-- loop embedded as a `foldl`.
-- ------------------------------------------------------------------

theorem foldl_step_congr {β γ : Type _} (step : β → String × PyValue → β)
    (f : β → γ) (l : Patch)
    (h : ∀ c kv, kv ∈ l → f (step c kv) = f c) :
    ∀ c : β, f (l.foldl step c) = f c := by
  induction l with
  | nil => intro c; rfl
  | cons kv t ih =>
    intro c
    rw [List.foldl_cons, ih (fun c kv hkv => h c kv (List.mem_cons_of_mem _ hkv)),
      h c kv (List.mem_cons_self _ _)]

theorem foldl_step_of_mem {β γ : Type _} (step : β → String × PyValue → β)
    (f : β → γ) (a : γ) (k0 : String) (v : PyValue) (l : Patch)
    (hnd : (l.map Prod.fst).Nodup) (hmem : (k0, v) ∈ l)
    (hset : ∀ c, f (step c (k0, v)) = a)
    (hpres : ∀ c kv, kv ∈ l → kv.1 ≠ k0 → f (step c kv) = f c) :
    ∀ c : β, f (l.foldl step c) = a := by
  induction l with
  | nil => cases hmem
  | cons kv t ih =>
    intro c
    rw [List.map_cons, List.nodup_cons] at hnd
    rcases List.mem_cons.mp hmem with heq | hmem2
    · subst heq
      rw [List.foldl_cons]
      rw [foldl_step_congr step f t]
      · exact hset c
      · intro c2 kv2 hkv2
        have hmm : kv2.1 ∈ t.map Prod.fst := List.mem_map_of_mem Prod.fst hkv2
        have hne : kv2.1 ≠ k0 := fun hk => hnd.1 (hk ▸ hmm)
        exact hpres c2 kv2 (List.mem_cons_of_mem _ hkv2) hne
    · rw [List.foldl_cons]
      exact ih hnd.2 hmem2
        (fun c2 kv2 h2 => hpres c2 kv2 (List.mem_cons_of_mem _ h2)) (step c kv)

theorem dictGet_eq_none_iff (l : Patch) (k : String) :
    dictGet l k = Option.none ↔ k ∉ l.map Prod.fst := by
  simp only [dictGet, Option.map_eq_none', List.find?_eq_none, beq_iff_eq,
    List.mem_map, not_exists]
  tauto

theorem dictGet_of_mem (l : Patch) (k : String) (v : PyValue)
    (hnd : (l.map Prod.fst).Nodup) (hmem : (k, v) ∈ l) :
    dictGet l k = some v := by
  induction l with
  | nil => cases hmem
  | cons kv t ih =>
    rw [List.map_cons, List.nodup_cons] at hnd
    rcases List.mem_cons.mp hmem with heq | hmem2
    · subst heq
      simp [dictGet, List.find?]
    · have hmm : k ∈ t.map Prod.fst := List.mem_map_of_mem Prod.fst hmem2
      have hne : kv.1 ≠ k := fun hk => hnd.1 (hk ▸ hmm)
      have : (kv.1 == k) = false := by simpa using hne
      simp only [dictGet, List.find?_cons, this]
      exact ih hnd.2 hmem2

theorem applyCardField_id (c : MonsterCard) (kv : String × PyValue) :
    (applyCardField c kv).id = c.id := by
  obtain ⟨k, v⟩ := kv
  simp only [applyCardField]
  split_ifs <;> cases v <;> rfl

theorem applyCardField_name (c : MonsterCard) (kv : String × PyValue)
    (h : kv.1 ≠ "name") : (applyCardField c kv).name = c.name := by
  obtain ⟨k, v⟩ := kv
  simp only [applyCardField]
  split_ifs <;> cases v <;>
    simp_all [setCardName, setCardDescription, setCardPrimary, setCardSecondary,
      setCardHealth, setCardAttack, setCardDefense, setCardSpeed]

theorem applyCardField_description (c : MonsterCard) (kv : String × PyValue)
    (h : kv.1 ≠ "description") : (applyCardField c kv).description = c.description := by
  obtain ⟨k, v⟩ := kv
  simp only [applyCardField]
  split_ifs <;> cases v <;>
    simp_all [setCardName, setCardDescription, setCardPrimary, setCardSecondary,
      setCardHealth, setCardAttack, setCardDefense, setCardSpeed]

theorem applyCardField_primary (c : MonsterCard) (kv : String × PyValue)
    (h : kv.1 ≠ "primary_type") : (applyCardField c kv).primary_type = c.primary_type := by
  obtain ⟨k, v⟩ := kv
  simp only [applyCardField]
  split_ifs <;> cases v <;>
    simp_all [setCardName, setCardDescription, setCardPrimary, setCardSecondary,
      setCardHealth, setCardAttack, setCardDefense, setCardSpeed]

theorem applyCardField_secondary (c : MonsterCard) (kv : String × PyValue)
    (h : kv.1 ≠ "secondary_type") : (applyCardField c kv).secondary_type = c.secondary_type := by
  obtain ⟨k, v⟩ := kv
  simp only [applyCardField]
  split_ifs <;> cases v <;>
    simp_all [setCardName, setCardDescription, setCardPrimary, setCardSecondary,
      setCardHealth, setCardAttack, setCardDefense, setCardSpeed]

theorem applyCardField_health (c : MonsterCard) (kv : String × PyValue)
    (h : kv.1 ≠ "health") : (applyCardField c kv).health = c.health := by
  obtain ⟨k, v⟩ := kv
  simp only [applyCardField]
  split_ifs <;> cases v <;>
    simp_all [setCardName, setCardDescription, setCardPrimary, setCardSecondary,
      setCardHealth, setCardAttack, setCardDefense, setCardSpeed]

theorem applyCardField_attack (c : MonsterCard) (kv : String × PyValue)
    (h : kv.1 ≠ "attack") : (applyCardField c kv).attack = c.attack := by
  obtain ⟨k, v⟩ := kv
  simp only [applyCardField]
  split_ifs <;> cases v <;>
    simp_all [setCardName, setCardDescription, setCardPrimary, setCardSecondary,
      setCardHealth, setCardAttack, setCardDefense, setCardSpeed]

theorem applyCardField_defense (c : MonsterCard) (kv : String × PyValue)
    (h : kv.1 ≠ "defense") : (applyCardField c kv).defense = c.defense := by
  obtain ⟨k, v⟩ := kv
  simp only [applyCardField]
  split_ifs <;> cases v <;>
    simp_all [setCardName, setCardDescription, setCardPrimary, setCardSecondary,
      setCardHealth, setCardAttack, setCardDefense, setCardSpeed]

theorem applyCardField_speed (c : MonsterCard) (kv : String × PyValue)
    (h : kv.1 ≠ "speed") : (applyCardField c kv).speed = c.speed := by
  obtain ⟨k, v⟩ := kv
  simp only [applyCardField]
  split_ifs <;> cases v <;>
    simp_all [setCardName, setCardDescription, setCardPrimary, setCardSecondary,
      setCardHealth, setCardAttack, setCardDefense, setCardSpeed]

theorem get_card_mem (db : CardDB) (i : Nat) (c : MonsterCard)
    (h : get_card db i = some c) : c ∈ db.cards ∧ c.id = i := by
  unfold get_card at h
  refine ⟨List.mem_of_find?_eq_some h, ?_⟩
  simpa using List.find?_some h

theorem update_card_ok {db : CardDB} {card_id : Nat} {patch : Patch}
    {db2 : CardDB} {card2 : MonsterCard}
    (h : update_card db card_id patch = Except.ok (db2, card2)) :
    ∃ card, get_card db card_id = some card ∧
      card2 = patchedCard card patch ∧
      db2.cards = db.cards.map (fun c => if c.id = card_id then card2 else c) ∧
      db2.nextId = db.nextId := by
  unfold update_card at h
  cases hget : get_card db card_id with
  | none => rw [hget] at h; cases h
  | some card =>
    rw [hget] at h
    simp only at h
    by_cases hdup :
        (db.cards.any (fun c => c.id != card_id && c.name == (patchedCard card patch).name)) = true
    · rw [if_pos hdup] at h
      split at h <;> cases h
    · rw [if_neg hdup] at h
      injection h with h2
      injection h2 with hdb hcard
      refine ⟨card, rfl, hcard.symm, ?_, ?_⟩
      · rw [← hdb, hcard]
      · rw [← hdb]

theorem applyCardField_name_set (c : MonsterCard) (s : String) :
    (applyCardField c ("name", PyValue.str s)).name = s := rfl

theorem applyCardField_description_set_str (c : MonsterCard) (s : String) :
    (applyCardField c ("description", PyValue.str s)).description = some s := rfl

theorem applyCardField_description_set_none (c : MonsterCard) :
    (applyCardField c ("description", PyValue.none)).description = Option.none := rfl

theorem applyCardField_primary_set (c : MonsterCard) (t : CardType) :
    (applyCardField c ("primary_type", PyValue.ctype t)).primary_type = t := rfl

theorem applyCardField_secondary_set_some (c : MonsterCard) (t : CardType) :
    (applyCardField c ("secondary_type", PyValue.ctype t)).secondary_type = some t := rfl

theorem applyCardField_secondary_set_none (c : MonsterCard) :
    (applyCardField c ("secondary_type", PyValue.none)).secondary_type = Option.none := rfl

theorem applyCardField_health_set (c : MonsterCard) (n : Nat) :
    (applyCardField c ("health", PyValue.int n)).health = n := rfl

theorem applyCardField_attack_set (c : MonsterCard) (n : Nat) :
    (applyCardField c ("attack", PyValue.int n)).attack = n := rfl

theorem applyCardField_defense_set (c : MonsterCard) (n : Nat) :
    (applyCardField c ("defense", PyValue.int n)).defense = n := rfl

theorem applyCardField_speed_set (c : MonsterCard) (n : Nat) :
    (applyCardField c ("speed", PyValue.int n)).speed = n := rfl

theorem cleanCardPatch_keys_nodup (patch : Patch)
    (h : (patch.map Prod.fst).Nodup) :
    ((cleanCardPatch patch).map Prod.fst).Nodup :=
  List.Nodup.sublist (List.Sublist.map Prod.fst (List.filter_sublist patch)) h

theorem mem_cleanCardPatch {patch : Patch} {kv : String × PyValue}
    (hmem : kv ∈ patch) (hup : kv.1 ∈ UPDATABLE_FIELDS) :
    kv ∈ cleanCardPatch patch :=
  List.mem_filter.mpr ⟨hmem, by simpa using hup⟩

theorem autoFillCond_of_primary_no_secondary {patch : Patch} {t : CardType}
    (hnd : (patch.map Prod.fst).Nodup) (htyped : patch.all typedCardEntry = true)
    (hp : ("primary_type", PyValue.ctype t) ∈ patch)
    (hnosec : ∀ u, ("secondary_type", PyValue.ctype u) ∉ patch) :
    autoFillCond (cleanCardPatch patch) = true := by
  have hpc : ("primary_type", PyValue.ctype t) ∈ cleanCardPatch patch :=
    mem_cleanCardPatch hp (show "primary_type" ∈ UPDATABLE_FIELDS by decide)
  have hk : "primary_type" ∈ (cleanCardPatch patch).map Prod.fst :=
    List.mem_map_of_mem Prod.fst hpc
  unfold autoFillCond
  rw [Bool.and_eq_true]
  refine ⟨by simpa using hk, ?_⟩
  by_cases hs : "secondary_type" ∈ (cleanCardPatch patch).map Prod.fst
  · obtain ⟨kv, hkv, hfst⟩ := List.mem_map.mp hs
    obtain ⟨k, w⟩ := kv
    simp only at hfst
    subst hfst
    have hpm : ("secondary_type", w) ∈ patch := List.mem_of_mem_filter hkv
    have hty := List.all_eq_true.mp htyped _ hpm
    cases w with
    | ctype u => exact absurd hpm (hnosec u)
    | none =>
      have hget : dictGet (cleanCardPatch patch) "secondary_type" = some PyValue.none :=
        dictGet_of_mem _ _ _ (cleanCardPatch_keys_nodup patch hnd) hkv
      rw [hget]
      simp
    | str s2 => simp [typedCardEntry] at hty
    | int n => simp [typedCardEntry] at hty
    | team tt => simp [typedCardEntry] at hty
  · rw [Bool.or_eq_true]
    exact Or.inl (by simpa using hs)

/-- C1: a card creation whose input omits `secondary_type` (supplies it as
null) stores `secondary_type = primary_type`; a card update whose patch
supplies `primary_type` and no non-null `secondary_type` stores
`secondary_type` equal to the new `primary_type`. -/
theorem c1_secondary_type_autofill
    (db : CardDB) (data : MonsterCardCreate) (card_id : Nat) (patch : Patch)
    (t : CardType) :
    (∀ db2 card, data.secondary_type = Option.none →
        create_card db data = Except.ok (db2, card) →
        card.secondary_type = some data.primary_type ∧ card ∈ db2.cards) ∧
    (∀ db2 card2, (patch.map Prod.fst).Nodup → patch.all typedCardEntry = true →
        ("primary_type", PyValue.ctype t) ∈ patch →
        (∀ u, ("secondary_type", PyValue.ctype u) ∉ patch) →
        update_card db card_id patch = Except.ok (db2, card2) →
        card2.primary_type = t ∧ card2.secondary_type = some t ∧ card2 ∈ db2.cards) := by
  constructor
  · intro db2 card hsec hok
    unfold create_card at hok
    simp only at hok
    by_cases hdup : (db.cards.any fun c => c.name == data.name) = true
    · rw [if_pos hdup] at hok; cases hok
    · rw [if_neg hdup] at hok
      injection hok with h2
      injection h2 with hdb hcard
      constructor
      · rw [← hcard, hsec]
        rfl
      · rw [← hdb, ← hcard]
        simp
  · intro db2 card2 hnd htyped hp hnosec hupd
    obtain ⟨card, hget, hcard2, hcards, hnext⟩ := update_card_ok hupd
    have hauto := autoFillCond_of_primary_no_secondary hnd htyped hp hnosec
    have hpc : ("primary_type", PyValue.ctype t) ∈ cleanCardPatch patch :=
      mem_cleanCardPatch hp (show "primary_type" ∈ UPDATABLE_FIELDS by decide)
    have hprim :
        ((cleanCardPatch patch).foldl applyCardField card).primary_type = t := by
      refine foldl_step_of_mem applyCardField (fun c => c.primary_type) t
        "primary_type" (PyValue.ctype t) (cleanCardPatch patch)
        (cleanCardPatch_keys_nodup patch hnd) hpc
        (fun c => applyCardField_primary_set c t)
        (fun c kv hkv hne => applyCardField_primary c kv hne) card
    have hc2 : card2 =
        { (cleanCardPatch patch).foldl applyCardField card with
            secondary_type := some ((cleanCardPatch patch).foldl applyCardField card).primary_type } := by
      rw [hcard2]
      unfold patchedCard
      simp only [hauto, if_true]
    refine ⟨?_, ?_, ?_⟩
    · rw [hc2]
      simpa using hprim
    · rw [hc2]
      simpa using hprim
    · have hcm : card ∈ db.cards := (get_card_mem db card_id card hget).1
      have hcid : card.id = card_id := (get_card_mem db card_id card hget).2
      rw [hcards]
      have hmm := List.mem_map_of_mem
        (fun c => if c.id = card_id then card2 else c) hcm
      simpa [hcid] using hmm

/-- Witness for C1: the creation and update auto-fill facts at the spec's
worked example (create "Embergeist" without `secondary_type`; patch its
`primary_type` to water). -/
theorem c1_secondary_type_autofill_witness :
    (emberCard.secondary_type = some CardType.fire ∧ emberCard ∈ emberDB.cards) ∧
    (emberWaterCard.primary_type = CardType.water ∧
      emberWaterCard.secondary_type = some CardType.water ∧
      emberWaterCard ∈ emberWaterDB.cards) :=
  ⟨(c1_secondary_type_autofill emptyCardDB emberData 1
      [("primary_type", PyValue.ctype CardType.water)] CardType.water).1
      emberDB emberCard rfl rfl,
   (c1_secondary_type_autofill emberDB emberData 1
      [("primary_type", PyValue.ctype CardType.water)] CardType.water).2
      emberWaterDB emberWaterCard (by decide) (by decide) (by decide)
      (fun u => by intro hmem; simp at hmem) rfl⟩

theorem cleanCardPatch_idem (patch : Patch) :
    cleanCardPatch (cleanCardPatch patch) = cleanCardPatch patch := by
  unfold cleanCardPatch
  rw [List.filter_filter]
  apply List.filter_congr
  intro kv hkv
  rw [Bool.and_self]

theorem patchedCard_clean (card : MonsterCard) (patch : Patch) :
    patchedCard card (cleanCardPatch patch) = patchedCard card patch := by
  unfold patchedCard
  rw [cleanCardPatch_idem]

theorem update_card_ignores_unrecognized (db : CardDB) (card_id : Nat)
    (patch : Patch) :
    update_card db card_id (cleanCardPatch patch) = update_card db card_id patch := by
  unfold update_card
  cases get_card db card_id with
  | none => rfl
  | some card => simp only [patchedCard_clean, cleanCardPatch_idem]

theorem not_mem_clean_keys {patch : Patch} {k : String}
    (h : k ∉ patch.map Prod.fst) : k ∉ (cleanCardPatch patch).map Prod.fst := by
  intro hk
  obtain ⟨kv, hkv, hfst⟩ := List.mem_map.mp hk
  exact h (hfst ▸ List.mem_map_of_mem Prod.fst (List.mem_of_mem_filter hkv))

theorem autoFillCond_false_of_no_primary {clean : Patch}
    (h : "primary_type" ∉ clean.map Prod.fst) : autoFillCond clean = false := by
  unfold autoFillCond
  simp [h]

theorem patchedCard_preserves {α : Type _} (f : MonsterCard → α)
    (card : MonsterCard) (patch : Patch) (k0 : String)
    (hpres : ∀ (c : MonsterCard) (kv : String × PyValue), kv.1 ≠ k0 →
      f (applyCardField c kv) = f c)
    (hnk : k0 ∉ patch.map Prod.fst)
    (hsec : ∀ c1 : MonsterCard,
      f { c1 with secondary_type := some c1.primary_type } = f c1) :
    f (patchedCard card patch) = f card := by
  have hclean : ∀ (c : MonsterCard) (kv : String × PyValue),
      kv ∈ cleanCardPatch patch → f (applyCardField c kv) = f c := by
    intro c kv hkv
    refine hpres c kv ?_
    intro hk
    exact (not_mem_clean_keys hnk) (hk ▸ List.mem_map_of_mem Prod.fst hkv)
  have h1 := foldl_step_congr applyCardField f (cleanCardPatch patch) hclean card
  unfold patchedCard
  simp only []
  split
  · rw [hsec, h1]
  · exact h1

theorem patchedCard_preserves_all {α : Type _} (f : MonsterCard → α)
    (card : MonsterCard) (patch : Patch)
    (hpres : ∀ (c : MonsterCard) (kv : String × PyValue),
      f (applyCardField c kv) = f c)
    (hsec : ∀ c1 : MonsterCard,
      f { c1 with secondary_type := some c1.primary_type } = f c1) :
    f (patchedCard card patch) = f card := by
  have h1 := foldl_step_congr applyCardField f (cleanCardPatch patch)
    (fun c kv _ => hpres c kv) card
  unfold patchedCard
  simp only []
  split
  · rw [hsec, h1]
  · exact h1

theorem patchedCard_no_autofill (card : MonsterCard) (patch : Patch)
    (h : autoFillCond (cleanCardPatch patch) = false) :
    patchedCard card patch = (cleanCardPatch patch).foldl applyCardField card := by
  unfold patchedCard
  simp [h]

/-- C5: a card update applies only the recognized fields {name, description,
primary_type, secondary_type, health, attack, defense, speed} present in
the patch — unrecognized keys are dropped before anything happens, so the
call behaves exactly like the call on the filtered patch — and every card
field not named in the patch keeps its previous value (the `id` always;
`secondary_type` except for the auto-fill case, i.e. as long as
`primary_type` is not in the patch); rows with another id are untouched. -/
theorem c5_update_frame (db : CardDB) (card_id : Nat) (patch : Patch) :
    update_card db card_id (cleanCardPatch patch) = update_card db card_id patch ∧
    (∀ db2 card2 card,
      get_card db card_id = some card →
      update_card db card_id patch = Except.ok (db2, card2) →
      card2.id = card.id ∧
      ("name" ∉ patch.map Prod.fst → card2.name = card.name) ∧
      ("description" ∉ patch.map Prod.fst → card2.description = card.description) ∧
      ("primary_type" ∉ patch.map Prod.fst → card2.primary_type = card.primary_type) ∧
      ("primary_type" ∉ patch.map Prod.fst → "secondary_type" ∉ patch.map Prod.fst →
        card2.secondary_type = card.secondary_type) ∧
      ("health" ∉ patch.map Prod.fst → card2.health = card.health) ∧
      ("attack" ∉ patch.map Prod.fst → card2.attack = card.attack) ∧
      ("defense" ∉ patch.map Prod.fst → card2.defense = card.defense) ∧
      ("speed" ∉ patch.map Prod.fst → card2.speed = card.speed) ∧
      (∀ c ∈ db.cards, c.id ≠ card_id → c ∈ db2.cards)) := by
  refine ⟨update_card_ignores_unrecognized db card_id patch, ?_⟩
  intro db2 card2 card hget hupd
  obtain ⟨card3, hget3, hcard2, hcards, hnext⟩ := update_card_ok hupd
  rw [hget] at hget3
  injection hget3 with hcc
  subst hcc
  refine ⟨?_, ?_, ?_, ?_, ?_, ?_, ?_, ?_, ?_, ?_⟩
  · rw [hcard2]
    exact patchedCard_preserves_all (fun c => c.id) card patch
      (fun c kv => applyCardField_id c kv) (fun c1 => rfl)
  · intro h
    rw [hcard2]
    exact patchedCard_preserves (fun c => c.name) card patch "name"
      (fun c kv hne => applyCardField_name c kv hne) h (fun c1 => rfl)
  · intro h
    rw [hcard2]
    exact patchedCard_preserves (fun c => c.description) card patch "description"
      (fun c kv hne => applyCardField_description c kv hne) h (fun c1 => rfl)
  · intro h
    rw [hcard2]
    refine patchedCard_preserves (fun c => c.primary_type) card patch "primary_type"
      (fun c kv hne => applyCardField_primary c kv hne) h (fun c1 => rfl)
  · intro hp hs
    rw [hcard2]
    have hfalse : autoFillCond (cleanCardPatch patch) = false :=
      autoFillCond_false_of_no_primary (not_mem_clean_keys hp)
    rw [patchedCard_no_autofill card patch hfalse]
    refine foldl_step_congr applyCardField (fun c => c.secondary_type)
      (cleanCardPatch patch) ?_ card
    intro c kv hkv
    refine applyCardField_secondary c kv ?_
    intro hk
    exact (not_mem_clean_keys hs) (hk ▸ List.mem_map_of_mem Prod.fst hkv)
  · intro h
    rw [hcard2]
    exact patchedCard_preserves (fun c => c.health) card patch "health"
      (fun c kv hne => applyCardField_health c kv hne) h (fun c1 => rfl)
  · intro h
    rw [hcard2]
    exact patchedCard_preserves (fun c => c.attack) card patch "attack"
      (fun c kv hne => applyCardField_attack c kv hne) h (fun c1 => rfl)
  · intro h
    rw [hcard2]
    exact patchedCard_preserves (fun c => c.defense) card patch "defense"
      (fun c kv hne => applyCardField_defense c kv hne) h (fun c1 => rfl)
  · intro h
    rw [hcard2]
    exact patchedCard_preserves (fun c => c.speed) card patch "speed"
      (fun c kv hne => applyCardField_speed c kv hne) h (fun c1 => rfl)
  · intro c hc hne
    rw [hcards]
    have hmm := List.mem_map_of_mem (fun c => if c.id = card_id then card2 else c) hc
    simpa [hne] using hmm

/-- Witness for C5: patching `{"health": 99, "bogus": 7}` on the example
card equals patching the filtered `{"health": 99}`, and the fields not in
the patch keep their values. -/
theorem c5_update_frame_witness :
    update_card emberDB 1
        (cleanCardPatch [("health", PyValue.int 99), ("bogus", PyValue.int 7)]) =
      update_card emberDB 1 [("health", PyValue.int 99), ("bogus", PyValue.int 7)] ∧
    ember99Card.name = emberCard.name ∧
    ember99Card.primary_type = emberCard.primary_type :=
  ⟨(c5_update_frame emberDB 1
      [("health", PyValue.int 99), ("bogus", PyValue.int 7)]).1,
   ((c5_update_frame emberDB 1
      [("health", PyValue.int 99), ("bogus", PyValue.int 7)]).2
      ember99DB ember99Card emberCard rfl rfl).2.1 (by decide),
   ((c5_update_frame emberDB 1
      [("health", PyValue.int 99), ("bogus", PyValue.int 7)]).2
      ember99DB ember99Card emberCard rfl rfl).2.2.2.1 (by decide)⟩

theorem patchedCard_secondary_autofill (card : MonsterCard) (patch : Patch)
    (h : autoFillCond (cleanCardPatch patch) = true) :
    (patchedCard card patch).secondary_type =
      some ((cleanCardPatch patch).foldl applyCardField card).primary_type := by
  unfold patchedCard
  simp [h]

/-- C3 counterexample: starting from the stored "Embergeist" card (whose
`secondary_type` is fire), the update `{"secondary_type": null}` — which
supplies no `primary_type` — succeeds and stores a card whose
`secondary_type` is NULL, so the claimed invariant is not preserved by
every update. -/
theorem c3_counterexample_null_secondary :
    update_card emberDB 1 [("secondary_type", PyValue.none)] =
      Except.ok (emberNullDB, emberNullCard) ∧
    emberNullCard ∈ emberNullDB.cards ∧
    emberNullCard.secondary_type = Option.none :=
  ⟨rfl, by decide, rfl⟩

/-- C3 amended: every stored card has a non-null `secondary_type` right
after creation, and the invariant is preserved by every update whose patch
does NOT explicitly set `secondary_type` to null while omitting
`primary_type`; an update that does exactly that stores a NULL
`secondary_type` (so the original claim's "including ..." case is the one
exception). -/
theorem c3_secondary_not_null_amended
    (db : CardDB) (data : MonsterCardCreate) (card_id : Nat) (patch : Patch) :
    (∀ db2 card, create_card db data = Except.ok (db2, card) →
        card.secondary_type ≠ Option.none) ∧
    (∀ db2 card2 card,
        (patch.map Prod.fst).Nodup →
        patch.all typedCardEntry = true →
        get_card db card_id = some card →
        card.secondary_type ≠ Option.none →
        ¬(("secondary_type", PyValue.none) ∈ patch ∧
            "primary_type" ∉ patch.map Prod.fst) →
        update_card db card_id patch = Except.ok (db2, card2) →
        card2.secondary_type ≠ Option.none) ∧
    (∀ db2 card2,
        (patch.map Prod.fst).Nodup →
        ("secondary_type", PyValue.none) ∈ patch →
        "primary_type" ∉ patch.map Prod.fst →
        update_card db card_id patch = Except.ok (db2, card2) →
        card2.secondary_type = Option.none) := by
  refine ⟨?_, ?_, ?_⟩
  · intro db2 card hok
    unfold create_card at hok
    simp only at hok
    by_cases hdup : (db.cards.any fun c => c.name == data.name) = true
    · rw [if_pos hdup] at hok; cases hok
    · rw [if_neg hdup] at hok
      injection hok with h2
      injection h2 with hdb hcard
      rw [← hcard]
      simp
  · intro db2 card2 card hnd htyped hget hsecnn hnot hupd
    obtain ⟨card3, hget3, hcard2, hcards, hnext⟩ := update_card_ok hupd
    rw [hget] at hget3
    injection hget3 with hcc
    subst hcc
    by_cases hauto : autoFillCond (cleanCardPatch patch) = true
    · rw [hcard2, patchedCard_secondary_autofill card patch hauto]
      simp
    · have hfalse : autoFillCond (cleanCardPatch patch) = false := by
        simpa using hauto
      rw [hcard2, patchedCard_no_autofill card patch hfalse]
      by_cases hs : "secondary_type" ∈ (cleanCardPatch patch).map Prod.fst
      · obtain ⟨kv, hkv, hfst⟩ := List.mem_map.mp hs
        obtain ⟨k, w⟩ := kv
        simp only at hfst
        subst hfst
        have hpm : ("secondary_type", w) ∈ patch := List.mem_of_mem_filter hkv
        have hty := List.all_eq_true.mp htyped _ hpm
        cases w with
        | none =>
          exfalso
          refine hnot ⟨hpm, ?_⟩
          intro hpk
          obtain ⟨kv2, hkv2, hfst2⟩ := List.mem_map.mp hpk
          obtain ⟨k2, w2⟩ := kv2
          simp only at hfst2
          subst hfst2
          have htyp2 := List.all_eq_true.mp htyped _ hkv2
          cases w2 with
          | ctype u =>
            have := autoFillCond_of_primary_no_secondary hnd htyped hkv2
              (fun u hmem => ?_)
            · exact hauto this
            · have hgot := dictGet_of_mem (cleanCardPatch patch) "secondary_type"
                PyValue.none (cleanCardPatch_keys_nodup patch hnd) hkv
              have hgot2 := dictGet_of_mem (cleanCardPatch patch) "secondary_type"
                (PyValue.ctype u) (cleanCardPatch_keys_nodup patch hnd)
                (mem_cleanCardPatch hmem
                  (show "secondary_type" ∈ UPDATABLE_FIELDS by decide))
              rw [hgot] at hgot2
              cases hgot2
          | none => simp [typedCardEntry] at htyp2
          | str s2 => simp [typedCardEntry] at htyp2
          | int n => simp [typedCardEntry] at htyp2
          | team tt => simp [typedCardEntry] at htyp2
        | ctype u =>
          have hval := foldl_step_of_mem applyCardField (fun c => c.secondary_type)
            (some u) "secondary_type" (PyValue.ctype u) (cleanCardPatch patch)
            (cleanCardPatch_keys_nodup patch hnd) hkv
            (fun c => applyCardField_secondary_set_some c u)
            (fun c kv hkvm hne => applyCardField_secondary c kv hne) card
          rw [hval]
          simp
        | str s2 => simp [typedCardEntry] at hty
        | int n => simp [typedCardEntry] at hty
        | team tt => simp [typedCardEntry] at hty
      · have hval := foldl_step_congr applyCardField (fun c => c.secondary_type)
          (cleanCardPatch patch) ?_ card
        · rw [hval]
          exact hsecnn
        · intro c kv hkv
          refine applyCardField_secondary c kv ?_
          intro hk
          exact hs (hk ▸ List.mem_map_of_mem Prod.fst hkv)
  · intro db2 card2 hnd hmem hnp hupd
    obtain ⟨card3, hget3, hcard2, hcards, hnext⟩ := update_card_ok hupd
    have hfalse : autoFillCond (cleanCardPatch patch) = false :=
      autoFillCond_false_of_no_primary (not_mem_clean_keys hnp)
    rw [hcard2, patchedCard_no_autofill card3 patch hfalse]
    exact foldl_step_of_mem applyCardField (fun c => c.secondary_type)
      Option.none "secondary_type" PyValue.none (cleanCardPatch patch)
      (cleanCardPatch_keys_nodup patch hnd)
      (mem_cleanCardPatch hmem (show "secondary_type" ∈ UPDATABLE_FIELDS by decide))
      (fun c => applyCardField_secondary_set_none c)
      (fun c kv hkvm hne => applyCardField_secondary c kv hne) card3

/-- Witness for the amended C3 at concrete inputs: creation stores non-null
secondary type; a patch without the null-secondary case keeps it non-null;
the exceptional patch `{"secondary_type": null}` nulls it. -/
theorem c3_secondary_not_null_amended_witness :
    emberCard.secondary_type ≠ Option.none ∧
    ember99Card.secondary_type ≠ Option.none ∧
    emberNullCard.secondary_type = Option.none :=
  ⟨(c3_secondary_not_null_amended emptyCardDB emberData 1
      [("health", PyValue.int 99), ("bogus", PyValue.int 7)]).1
      emberDB emberCard rfl,
   (c3_secondary_not_null_amended emberDB emberData 1
      [("health", PyValue.int 99), ("bogus", PyValue.int 7)]).2.1
      ember99DB ember99Card emberCard (by decide) (by decide) rfl (by decide)
      (by decide) rfl,
   (c3_secondary_not_null_amended emberDB emberData 1
      [("secondary_type", PyValue.none)]).2.2
      emberNullDB emberNullCard (by decide) (by decide) (by decide) rfl⟩

/-- C2 (code bug): creating a card whose name duplicates a stored card's
name (case-sensitive) fails — but `create_card`'s blanket
`except Exception` converts the `IntegrityError` into
`HTTPException(status_code=400)`, never the `DuplicateNameError` that its
docstring promises and that the router's 409 handler expects; the error
return leaves the passed-in table untouched (no partial state). -/
theorem c2_duplicate_create_http400
    (db : CardDB) (data : MonsterCardCreate) (c : MonsterCard)
    (hc : c ∈ db.cards) (hname : c.name = data.name) :
    create_card db data = Except.error (ApiError.httpException 400) ∧
    create_card db data ≠ Except.error ApiError.duplicateName := by
  have hany : (db.cards.any fun c2 => c2.name == data.name) = true :=
    List.any_eq_true.mpr ⟨c, hc, by simpa using hname⟩
  unfold create_card
  simp only [hany, if_true]
  constructor <;> simp

/-- Witness for C2: re-creating "Embergeist" over the table that already
stores it yields HTTP 400, not DuplicateNameError. -/
theorem c2_duplicate_create_http400_witness :
    create_card emberDB emberData = Except.error (ApiError.httpException 400) ∧
    create_card emberDB emberData ≠ Except.error ApiError.duplicateName :=
  c2_duplicate_create_http400 emberDB emberData emberCard (by decide) rfl

/-- C4 (code bug): `create_player` rejects a creation whose
`monster_card_id` is null with `HTTPException(400)` — even over a table
that does contain cards — because `get_card(db, None)` matches no row; a
dangling reference is rejected the same way.  So the claimed "omitted/null
succeeds" behaviour does not hold. -/
theorem c4_null_monster_card_id_rejected :
    create_player emberDB emptyPlayerDB aliceNullData =
      Except.error (ApiError.httpException 400) ∧
    create_player emberDB emptyPlayerDB bobDanglingData =
      Except.error (ApiError.httpException 400) :=
  ⟨rfl, rfl⟩

/-- C10: a successful `create_player` stores `team = neutral` no matter
what team the payload supplied, because the `Player(...)` constructor call
never passes `team` and the column default applies. -/
theorem c10_created_player_team_neutral
    (cdb : CardDB) (pdb : PlayerDB) (data : PlayerCreate)
    (pdb2 : PlayerDB) (p : Player)
    (h : create_player cdb pdb data = Except.ok (pdb2, p)) :
    p.team = some TeamType.neutral ∧ p ∈ pdb2.players := by
  unfold create_player at h
  simp only at h
  by_cases h1 : (get_card_opt cdb data.monster_card_id).isNone = true
  · rw [if_pos h1] at h; cases h
  · rw [if_neg h1] at h
    by_cases h2 : (pdb.players.any fun p2 => p2.name == data.name) = true
    · rw [if_pos h2] at h; cases h
    · rw [if_neg h2] at h
      injection h with h3
      injection h3 with hdb hp
      constructor
      · rw [← hp]
      · rw [← hdb, ← hp]
        simp

/-- Witness for C10: creating Alice with team bull (and a valid card
reference) stores her with team neutral. -/
theorem c10_created_player_team_neutral_witness :
    alicePlayer.team = some TeamType.neutral ∧ alicePlayer ∈ alicePlayerDB.players :=
  c10_created_player_team_neutral emberDB emptyPlayerDB aliceBullData
    alicePlayerDB alicePlayer rfl

theorem applyPlayerField_name_set (p : Player) (s : String) :
    (applyPlayerField p ("name", PyValue.str s)).name = s := rfl

theorem applyPlayerField_name (p : Player) (kv : String × PyValue)
    (h : kv.1 ≠ "name") : (applyPlayerField p kv).name = p.name := by
  obtain ⟨k, v⟩ := kv
  simp only [applyPlayerField]
  split_ifs <;> cases v <;>
    simp_all [setPlayerName, setPlayerTeam, setPlayerCardId]

theorem cleanPlayerPatch_keys_nodup (patch : Patch)
    (h : (patch.map Prod.fst).Nodup) :
    ((cleanPlayerPatch patch).map Prod.fst).Nodup :=
  List.Nodup.sublist (List.Sublist.map Prod.fst (List.filter_sublist patch)) h

theorem mem_cleanPlayerPatch {patch : Patch} {kv : String × PyValue}
    (hmem : kv ∈ patch) (hup : kv.1 ∈ PLAYER_UPDATABLE_FIELDS) :
    kv ∈ cleanPlayerPatch patch :=
  List.mem_filter.mpr ⟨hmem, by simpa using hup⟩

theorem name_mem_clean_player_keys {patch : Patch}
    (h : "name" ∈ patch.map Prod.fst) :
    "name" ∈ (cleanPlayerPatch patch).map Prod.fst := by
  obtain ⟨kv, hkv, hfst⟩ := List.mem_map.mp h
  refine List.mem_map.mpr ⟨kv, List.mem_filter.mpr ⟨hkv, ?_⟩, hfst⟩
  rw [hfst]
  decide

/-- C9: whenever the patch given to `update_player` contains a `"name"`
key and the player exists, the call ends in an exception, never a normal
return — and when the commit itself succeeds (new name unique, foreign key
intact) the table HAS been mutated to the patched row and the call still
returns an error (the `raise DuplicateNameError(...) from e` after the
`try` block evaluates the unbound `e`, raising `NameError`); with a
well-formed patch the committed row carries the new name. -/
theorem c9_update_player_name_always_raises
    (cdb : CardDB) (pdb : PlayerDB) (player_id : Nat) (patch : Patch)
    (player : Player) (s : String) :
    (get_player pdb player_id = some player →
      "name" ∈ patch.map Prod.fst →
      ∀ p2, (update_player cdb pdb player_id patch).2 ≠ Except.ok p2) ∧
    (get_player pdb player_id = some player →
      "name" ∈ patch.map Prod.fst →
      (pdb.players.any fun q =>
        q.id != player_id && q.name == (patchedPlayer player patch).name) = false →
      (match (patchedPlayer player patch).monster_card_id with
        | Option.none => false
        | some i => (get_card cdb i).isNone) = false →
      (update_player cdb pdb player_id patch).2 = Except.error ApiError.pyNameError ∧
      (update_player cdb pdb player_id patch).1.players =
        pdb.players.map
          (fun q => if q.id = player_id then patchedPlayer player patch else q)) ∧
    ((patch.map Prod.fst).Nodup → ("name", PyValue.str s) ∈ patch →
      (patchedPlayer player patch).name = s) := by
  refine ⟨?_, ?_, ?_⟩
  · intro hget hname p2
    unfold update_player
    rw [hget]
    simp only []
    by_cases hfail : ((pdb.players.any fun q =>
        q.id != player_id && q.name == (patchedPlayer player patch).name) ||
        (match (patchedPlayer player patch).monster_card_id with
          | Option.none => false
          | some i => (get_card cdb i).isNone)) = true
    · rw [if_pos hfail]
      simp
    · rw [if_neg hfail]
      rw [if_pos (name_mem_clean_player_keys hname)]
      simp
  · intro hget hname hdup hfk
    unfold update_player
    rw [hget]
    simp only []
    have hcond : ¬ (((pdb.players.any fun q =>
        q.id != player_id && q.name == (patchedPlayer player patch).name) ||
        (match (patchedPlayer player patch).monster_card_id with
          | Option.none => false
          | some i => (get_card cdb i).isNone)) = true) := by
      rw [hdup, hfk]
      simp
    rw [if_neg hcond]
    rw [if_pos (name_mem_clean_player_keys hname)]
    exact ⟨rfl, rfl⟩
  · intro hnd hmem
    unfold patchedPlayer
    exact foldl_step_of_mem applyPlayerField (fun p => p.name) s "name"
      (PyValue.str s) (cleanPlayerPatch patch)
      (cleanPlayerPatch_keys_nodup patch hnd)
      (mem_cleanPlayerPatch hmem (show "name" ∈ PLAYER_UPDATABLE_FIELDS by decide))
      (fun p => applyPlayerField_name_set p s)
      (fun p kv hkv hne => applyPlayerField_name p kv hne) player

/-- Witness for C9: renaming Alice to the unique name "Bob" commits the
rename into the table yet returns the post-commit NameError. -/
theorem c9_update_player_name_always_raises_witness :
    (update_player emberDB alicePlayerDB 1 [("name", PyValue.str "Bob")]).2 =
      Except.error ApiError.pyNameError ∧
    (update_player emberDB alicePlayerDB 1 [("name", PyValue.str "Bob")]).1.players =
      alicePlayerDB.players.map
        (fun q => if q.id = 1 then
          patchedPlayer alicePlayer [("name", PyValue.str "Bob")] else q) ∧
    (patchedPlayer alicePlayer [("name", PyValue.str "Bob")]).name = "Bob" :=
  ⟨((c9_update_player_name_always_raises emberDB alicePlayerDB 1
      [("name", PyValue.str "Bob")] alicePlayer "Bob").2.1 rfl (by decide)
      rfl rfl).1,
   ((c9_update_player_name_always_raises emberDB alicePlayerDB 1
      [("name", PyValue.str "Bob")] alicePlayer "Bob").2.1 rfl (by decide)
      rfl rfl).2,
   (c9_update_player_name_always_raises emberDB alicePlayerDB 1
      [("name", PyValue.str "Bob")] alicePlayer "Bob").2.2 (by decide)
      (by decide)⟩

/-- C7 counterexample: for a card named "FireDrake", Python's
`str.capitalize()` lower-cases the tail, so the renderer derives
`Firedrake.png` — not the `FireDrake.png` the claim's "remaining characters
unchanged" rule predicts. -/
theorem c7_counterexample_capitalize_lowercases_tail :
    monster_filename "FireDrake" = "Firedrake.png" ∧
    claimedImageFilename "FireDrake" = "FireDrake.png" ∧
    monster_filename "FireDrake" ≠ claimedImageFilename "FireDrake" :=
  ⟨by decide, by decide, by decide⟩

/-- C7 amended: the renderer's image file name is the card's name with the
first letter capitalized and the REMAINING CHARACTERS LOWER-CASED, spaces
replaced by underscores, plus ".png"; the icon URLs join the public icon
base path with the lower-cased type name plus "_icon.png"; the Embergeist
example URLs are as the spec states; and a successful render substitutes
exactly these URLs into the template. -/
theorem c7_amended_image_and_icon_urls
    (db : CardDB) (fs : FileSystem) (templates : DisplayType → String)
    (card_id : Nat) (d : DisplayType) (name : String) (t : CardType) :
    monster_filename name = amendedImageFilename name ∧
    monster_image_url name =
      PUBLIC_MONSTER_IMAGES_URL ++ "/" ++ amendedImageFilename name ∧
    type_icon_url t = PUBLIC_TYPE_ICONS_URL ++ "/" ++ pyLower t.value ++ "_icon.png" ∧
    monster_image_url "Embergeist" =
      "/assets/monster_cards/monster_card_images/Embergeist.png" ∧
    "fire_icon.png".data <:+ (type_icon_url CardType.fire).data ∧
    (∀ card st fs1 html, get_card db card_id = some card →
      card.secondary_type = some st →
      display_monster_card db fs templates card_id d = Except.ok (fs1, html) →
      html = safeSubstitute (templates d) (renderMapping card st) ∧
      smGet (renderMapping card st) "image_path" = some (monster_image_url card.name) ∧
      smGet (renderMapping card st) "primary_type_image_path" =
        some (type_icon_url card.primary_type) ∧
      smGet (renderMapping card st) "secondary_type_image_path" =
        some (type_icon_url st)) := by
  refine ⟨?_, ?_, rfl, by decide, by decide, ?_⟩
  · unfold monster_filename amendedImageFilename pyCapitalize
    rfl
  · unfold monster_image_url monster_filename amendedImageFilename pyCapitalize
    rfl
  · intro card st fs1 html hget hst hdisp
    unfold display_monster_card at hdisp
    rw [hget] at hdisp
    simp only at hdisp
    cases hens : ensure_image_size fs (monster_image_disk_path card.name) (230, 150) with
    | error e => rw [hens] at hdisp; cases hdisp
    | ok fs2 =>
      rw [hens, hst] at hdisp
      injection hdisp with h2
      injection h2 with hfs hhtml
      exact ⟨hhtml.symm, rfl, rfl, rfl⟩

/-- Witness for the amended C7: rendering the stored Embergeist card (image
file absent, normal template) succeeds with exactly the substituted
mapping, whose URLs are the spec's example URLs. -/
theorem c7_amended_image_and_icon_urls_witness :
    safeSubstitute normalTemplate (renderMapping emberCard CardType.fire) =
      safeSubstitute normalTemplate (renderMapping emberCard CardType.fire) ∧
    smGet (renderMapping emberCard CardType.fire) "image_path" =
      some (monster_image_url emberCard.name) ∧
    smGet (renderMapping emberCard CardType.fire) "primary_type_image_path" =
      some (type_icon_url emberCard.primary_type) ∧
    smGet (renderMapping emberCard CardType.fire) "secondary_type_image_path" =
      some (type_icon_url CardType.fire) :=
  (c7_amended_image_and_icon_urls emberDB (fun _ => Option.none)
      (fun _ => normalTemplate) 1 DisplayType.normal "Embergeist"
      CardType.fire).2.2.2.2.2 emberCard CardType.fire
      (fun _ => Option.none)
      (safeSubstitute normalTemplate (renderMapping emberCard CardType.fire))
      rfl rfl rfl

theorem safeSubstList_cons_ne (m : List (String × String)) (c : Char)
    (l : List Char) (hc : c ≠ '$') :
    safeSubstList m (c :: l) = c :: safeSubstList m l := by
  rw [safeSubstList.eq_def]
  split
  · simp_all
  · simp_all
  · simp_all

theorem takeWhile_ident {ident : List Char} (suf : List Char)
    (hall : ∀ c ∈ ident, isIdChar c = true) :
    (ident ++ '}' :: suf).takeWhile isIdChar = ident ∧
    (ident ++ '}' :: suf).dropWhile isIdChar = '}' :: suf := by
  induction ident with
  | nil =>
    have h : isIdChar '}' = false := by decide
    constructor <;> simp [List.takeWhile_cons, List.dropWhile_cons, h]
  | cons c cs ih =>
    have hc : isIdChar c = true := hall c (List.mem_cons_self c cs)
    have ih2 := ih (fun c2 h2 => hall c2 (List.mem_cons_of_mem _ h2))
    simp [List.takeWhile_cons, List.dropWhile_cons, hc, ih2.1, ih2.2]

theorem safeSubstList_braced_head (m : List (String × String))
    (ident suf : List Char) (v : String)
    (hid : validIdent ident = true)
    (hall : ∀ c ∈ ident, isIdChar c = true)
    (hv : smGet m (String.mk ident) = some v) :
    safeSubstList m ('$' :: '{' :: (ident ++ '}' :: suf)) =
      v.data ++ safeSubstList m suf := by
  obtain ⟨htk, hdw⟩ := takeWhile_ident suf hall
  rw [safeSubstList.eq_def]
  simp only []
  split
  · rename_i rest3 heq
    rw [hdw] at heq
    injection heq with heq1 heq2
    subst heq2
    rw [htk, hid]
    simp only [if_true]
    rw [hv]
  · rename_i hne
    exact absurd hdw (by rw [hdw] at hne ⊢; exact fun h => (hne _ rfl).elim)

theorem safeSubstList_braced (m : List (String × String))
    (pre ident suf : List Char) (v : String)
    (hpre : '$' ∉ pre)
    (hid : validIdent ident = true)
    (hall : ∀ c ∈ ident, isIdChar c = true)
    (hv : smGet m (String.mk ident) = some v) :
    safeSubstList m (pre ++ '$' :: '{' :: (ident ++ '}' :: suf)) =
      pre ++ v.data ++ safeSubstList m suf := by
  induction pre with
  | nil => simpa using safeSubstList_braced_head m ident suf v hid hall hv
  | cons c cs ih =>
    have hc : c ≠ '$' := fun h => hpre (h ▸ List.mem_cons_self c cs)
    have ih2 := ih (fun h => hpre (List.mem_cons_of_mem _ h))
    rw [List.cons_append, safeSubstList_cons_ne m c _ hc, ih2]
    simp

set_option maxRecDepth 4096 in
theorem normalTemplate_split :
    normalTemplate.data =
      imgPathPre ++ '$' :: '{' :: ("image_path".data ++ '}' :: imgPathSuf) := by
  decide

/-- C8: running the image normalizer on a path whose file does not exist is
a silent no-op (it returns with the file system unchanged and no error),
and rendering a card whose derived image file is missing still succeeds,
producing the template substitution — which, for the normal template,
contains the dangling image URL as a substring. -/
theorem c8_missing_image_noop_and_render
    (db : CardDB) (fs : FileSystem) (templates : DisplayType → String)
    (card_id : Nat) (d : DisplayType) (card : MonsterCard) (st : CardType)
    (hget : get_card db card_id = some card)
    (hst : card.secondary_type = some st)
    (hmiss : fs (monster_image_disk_path card.name) = Option.none) :
    ensure_image_size fs (monster_image_disk_path card.name) (230, 150) =
      Except.ok fs ∧
    display_monster_card db fs templates card_id d =
      Except.ok (fs, safeSubstitute (templates d) (renderMapping card st)) ∧
    (templates d = normalTemplate →
      (monster_image_url card.name).data <:+:
        (safeSubstitute (templates d) (renderMapping card st)).data) := by
  have hens : ensure_image_size fs (monster_image_disk_path card.name) (230, 150) =
      Except.ok fs := by
    unfold ensure_image_size
    rw [hmiss]
  refine ⟨hens, ?_, ?_⟩
  · unfold display_monster_card
    rw [hget]
    simp only []
    rw [hens, hst]
  · intro htmpl
    rw [htmpl]
    have hv : smGet (renderMapping card st) (String.mk "image_path".data) =
        some (monster_image_url card.name) := rfl
    have h := safeSubstList_braced (renderMapping card st)
      imgPathPre ("image_path".data) imgPathSuf
      (monster_image_url card.name) (by decide) (by decide)
      (by decide) hv
    show (monster_image_url card.name).data <:+:
      safeSubstList (renderMapping card st) normalTemplate.data
    rw [normalTemplate_split, h]
    exact ⟨imgPathPre, safeSubstList (renderMapping card st) imgPathSuf,
      by simp [List.append_assoc]⟩

/-- Witness for C8: the normalizer is a no-op on the absent Embergeist
image, and rendering the stored Embergeist card over an empty asset
directory succeeds with HTML that contains the dangling image URL. -/
theorem c8_missing_image_noop_and_render_witness :
    ensure_image_size (fun _ => Option.none)
        (monster_image_disk_path emberCard.name) (230, 150) =
      Except.ok (fun _ => Option.none) ∧
    display_monster_card emberDB (fun _ => Option.none)
        (fun _ => normalTemplate) 1 DisplayType.normal =
      Except.ok ((fun _ => Option.none),
        safeSubstitute normalTemplate (renderMapping emberCard CardType.fire)) ∧
    (monster_image_url emberCard.name).data <:+:
      (safeSubstitute normalTemplate (renderMapping emberCard CardType.fire)).data := by
  obtain ⟨hens, hdisp, hinf⟩ := c8_missing_image_noop_and_render emberDB
    (fun _ => Option.none) (fun _ => normalTemplate) 1 DisplayType.normal
    emberCard CardType.fire rfl rfl rfl
  exact ⟨hens, hdisp, hinf rfl⟩

theorem insertById_perm (c : MonsterCard) (l : List MonsterCard) :
    List.Perm (insertById c l) (c :: l) := by
  induction l with
  | nil => exact List.Perm.refl _
  | cons d ds ih =>
    unfold insertById
    split
    · exact List.Perm.refl _
    · exact (ih.cons d).trans (List.Perm.swap c d ds)

theorem orderById_perm (l : List MonsterCard) : List.Perm (orderById l) l := by
  induction l with
  | nil => exact List.Perm.refl _
  | cons c cs ih => exact (insertById_perm c (orderById cs)).trans (ih.cons c)

theorem insertById_pairwise (c : MonsterCard) (l : List MonsterCard)
    (h : l.Pairwise (fun a b => a.id ≤ b.id)) :
    (insertById c l).Pairwise (fun a b => a.id ≤ b.id) := by
  induction l with
  | nil => simp [insertById]
  | cons d ds ih =>
    rw [List.pairwise_cons] at h
    unfold insertById
    split
    · rename_i hle
      rw [List.pairwise_cons]
      refine ⟨?_, List.pairwise_cons.mpr h⟩
      intro b hb
      rcases List.mem_cons.mp hb with hbd | hbds
      · exact hbd ▸ hle
      · exact Nat.le_trans hle (h.1 b hbds)
    · rename_i hgt
      rw [List.pairwise_cons]
      constructor
      · intro b hb
        have hmem := (insertById_perm c ds).mem_iff.mp hb
        rcases List.mem_cons.mp hmem with hbc | hbds
        · subst hbc
          omega
        · exact h.1 b hbds
      · exact ih h.2

theorem orderById_pairwise (l : List MonsterCard) :
    (orderById l).Pairwise (fun a b => a.id ≤ b.id) := by
  induction l with
  | nil => simp [orderById]
  | cons c cs ih => exact insertById_pairwise c (orderById cs) ih

theorem pairwise_lt_of_le_nodup (l : List MonsterCard)
    (h : l.Pairwise (fun a b => a.id ≤ b.id))
    (hnd : (l.map (fun c => c.id)).Nodup) :
    l.Pairwise (fun a b => a.id < b.id) := by
  exact (h.and ((List.pairwise_map).mp hnd)).imp
    (fun hab => Nat.lt_of_le_of_ne hab.1 hab.2)

theorem eq_of_perm_of_pairwise_lt (l1 l2 : List MonsterCard)
    (hp : List.Perm l1 l2)
    (h1 : l1.Pairwise (fun a b => a.id < b.id))
    (h2 : l2.Pairwise (fun a b => a.id < b.id)) : l1 = l2 := by
  haveI : IsAntisymm MonsterCard (fun a b => a.id < b.id) :=
    ⟨fun a b ha hb => absurd (Nat.lt_trans ha hb) (Nat.lt_irrefl _)⟩
  exact List.eq_of_perm_of_sorted hp h1 h2

theorem likeAny_eq_true_iff (f : List Char → Bool) (s : List Char) :
    likeAny f s = true ↔ ∃ s2, s2 <:+ s ∧ f s2 = true := by
  induction s with
  | nil =>
    simp only [likeAny]
    constructor
    · intro h
      exact ⟨[], List.nil_suffix, h⟩
    · rintro ⟨s2, hsuf, hf⟩
      rw [List.suffix_nil.mp hsuf] at hf
      exact hf
  | cons c s ih =>
    simp only [likeAny, Bool.or_eq_true, ih]
    constructor
    · rintro (h1 | ⟨s2, hsuf, hf⟩)
      · exact ⟨c :: s, List.suffix_refl _, h1⟩
      · exact ⟨s2, hsuf.trans (List.suffix_cons c s), hf⟩
    · rintro ⟨s2, hsuf, hf⟩
      rcases List.suffix_cons_iff.mp hsuf with heq | hsuf2
      · subst heq
        exact Or.inl hf
      · exact Or.inr ⟨s2, hsuf2, hf⟩

theorem likeMatch_percent (ps : List Char) (s : List Char) :
    likeMatch ('%' :: ps) s = likeAny (likeMatch ps) s := by
  rw [likeMatch.eq_def]
  split <;> simp_all [@eq_comm Char]

theorem likeMatch_cons_nil (c : Char) (ps : List Char) (hc : c ≠ '%') :
    likeMatch (c :: ps) [] = false := by
  rw [likeMatch.eq_def]
  split <;> simp_all

theorem likeMatch_cons_cons (c : Char) (ps : List Char) (d : Char) (s : List Char)
    (hc1 : c ≠ '%') (hc2 : c ≠ '_') (hc3 : c ≠ '\\') :
    likeMatch (c :: ps) (d :: s) = (c == d && likeMatch ps s) := by
  rw [likeMatch.eq_def]
  split <;> simp_all

theorem likeMatch_literal (t : List Char)
    (ht : ∀ c ∈ t, c ≠ '%' ∧ c ≠ '_' ∧ c ≠ '\\') :
    ∀ s, (likeMatch (t ++ ['%']) s = true ↔ t <+: s) := by
  induction t with
  | nil =>
    intro s
    constructor
    · intro _
      exact List.nil_prefix
    · intro _
      rw [List.nil_append, likeMatch_percent]
      exact (likeAny_eq_true_iff (likeMatch []) s).mpr ⟨[], List.nil_suffix, rfl⟩
  | cons c t ih =>
    intro s
    obtain ⟨hc1, hc2, hc3⟩ := ht c (List.mem_cons_self c t)
    have ih2 := ih (fun c2 h2 => ht c2 (List.mem_cons_of_mem _ h2))
    cases s with
    | nil =>
      rw [List.cons_append, likeMatch_cons_nil c _ hc1]
      simp
    | cons d s2 =>
      rw [List.cons_append, likeMatch_cons_cons c _ d s2 hc1 hc2 hc3,
        Bool.and_eq_true, ih2 s2]
      simp [List.cons_prefix_cons]

theorem toLower_ne (a w : Char) (hw : w.toNat < 97 ∨ 122 < w.toNat)
    (ha : a ≠ w) : Char.toLower a ≠ w := by
  unfold Char.toLower
  simp only []
  split
  · rename_i hcond
    intro heq
    have hv : Nat.isValidChar (a.toNat + 32) := Or.inl (by omega)
    have h2 : (Char.ofNat (a.toNat + 32)).toNat = w.toNat := by rw [heq]
    rw [Char.ofNat, dif_pos hv] at h2
    simp only [Char.toNat, Char.ofNatAux, UInt32.toNat, BitVec.toNat_ofNatLt] at h2
    simp only [Char.toNat, UInt32.toNat] at hw hcond
    omega
  · exact ha

theorem pyLower_no_wildcards {s : String}
    (h : ∀ c ∈ s.data, c ≠ '%' ∧ c ≠ '_' ∧ c ≠ '\\') :
    ∀ c ∈ (pyLower s).data, c ≠ '%' ∧ c ≠ '_' ∧ c ≠ '\\' := by
  intro c hc
  simp only [pyLower, List.mem_map] at hc
  obtain ⟨a, ha, rfl⟩ := hc
  obtain ⟨h1, h2, h3⟩ := h a ha
  exact ⟨toLower_ne a '%' (by decide) h1, toLower_ne a '_' (by decide) h2,
    toLower_ne a '\\' (by decide) h3⟩

theorem ilikeTest_eq_claimed (term name : String)
    (ht : ∀ c ∈ (pyLower term).data, c ≠ '%' ∧ c ≠ '_' ∧ c ≠ '\\') :
    ilikeTest term name = claimedNameFilter term name := by
  unfold ilikeTest claimedNameFilter
  rw [List.cons_append, likeMatch_percent, Bool.eq_iff_iff, likeAny_eq_true_iff,
    decide_eq_true_iff]
  constructor
  · rintro ⟨s2, hsuf, hm⟩
    exact List.infix_iff_prefix_suffix.mpr
      ⟨s2, (likeMatch_literal _ ht s2).mp hm, hsuf⟩
  · intro hinf
    obtain ⟨s2, hpref, hsuf⟩ := List.infix_iff_prefix_suffix.mp hinf
    exact ⟨s2, hsuf, (likeMatch_literal _ ht s2).mpr hpref⟩

/-- C6 counterexample: `list_cards` interpolates `name_search` into an
`ILIKE` pattern, so `%` acts as a wildcard: searching "a%b" returns the
card named "axxb" although "a%b" is not a (case-insensitive) substring of
"axxb" — the claimed pure-substring semantics would return nothing. -/
theorem c6_counterexample_wildcard_search :
    list_cards axxbDB 20 0 Option.none Option.none (some "a%b") = [axxbCard] ∧
    claimedNameFilter "a%b" "axxb" = false :=
  ⟨by decide, by decide⟩

/-- C6 amended: for every store and every limit/offset/filter choice,
`list_cards` returns exactly the rows satisfying the conjunction of the
supplied filters — exact primary/secondary match and the `ILIKE`
`%name_search%` clause (for a `name_search` free of the wildcard/escape
characters `%`, `_`, `\` this clause IS the claimed case-insensitive
substring match) — ordered by id ascending, with `offset` rows skipped and
at most `limit` returned, pagination applied after filtering. -/
theorem c6_list_cards_amended
    (db : CardDB) (limit offset : Nat) (pt st : Option CardType)
    (ns : Option String)
    (hnd : (db.cards.map (fun c => c.id)).Nodup) :
    (∀ c ∈ list_cards db limit offset pt st ns,
      c ∈ db.cards ∧
      (∀ t, pt = some t → c.primary_type = t) ∧
      (∀ t, st = some t → c.secondary_type = some t) ∧
      (∀ s, ns = some s → s ≠ "" → ilikeTest s c.name = true)) ∧
    (list_cards db limit offset pt st ns).Pairwise (fun a b => a.id < b.id) ∧
    (list_cards db limit offset pt st ns).length ≤ limit ∧
    list_cards db limit offset pt st ns =
      (((orderById db.cards).filter (passesFilters pt st ns)).drop offset).take
        limit ∧
    (∀ s, ns = some s →
      (∀ ch ∈ s.data, ch ≠ '%' ∧ ch ≠ '_' ∧ ch ≠ '\\') →
      ∀ nm, ilikeTest s nm = claimedNameFilter s nm) := by
  have hfilterids :
      ((db.cards.filter (passesFilters pt st ns)).map (fun c => c.id)).Nodup :=
    List.Nodup.sublist (List.Sublist.map _ (List.filter_sublist db.cards)) hnd
  have hsortids :
      ((orderById (db.cards.filter (passesFilters pt st ns))).map
        (fun c => c.id)).Nodup :=
    (List.Perm.nodup_iff
      ((orderById_perm (db.cards.filter (passesFilters pt st ns))).map
        (fun c => c.id))).mpr hfilterids
  have hsorted :
      (orderById (db.cards.filter (passesFilters pt st ns))).Pairwise
        (fun a b => a.id < b.id) :=
    pairwise_lt_of_le_nodup _ (orderById_pairwise _) hsortids
  refine ⟨?_, ?_, ?_, ?_, ?_⟩
  · intro c hc
    unfold list_cards at hc
    have h1 := List.mem_of_mem_take hc
    have h2 := List.mem_of_mem_drop h1
    have h3 := (orderById_perm _).mem_iff.mp h2
    obtain ⟨hdb, hpass⟩ := List.mem_filter.mp h3
    unfold passesFilters at hpass
    rw [Bool.and_eq_true, Bool.and_eq_true] at hpass
    obtain ⟨⟨hA, hB⟩, hC⟩ := hpass
    refine ⟨hdb, ?_, ?_, ?_⟩
    · intro t hpt
      subst hpt
      exact of_decide_eq_true hA
    · intro t hst
      subst hst
      exact of_decide_eq_true hB
    · intro s hns hsne
      subst hns
      have hne : s.isEmpty = false := by
        rw [Bool.eq_false_iff]
        intro h
        exact hsne ((String.isEmpty_iff s).mp h)
      simp only [] at hC
      rw [hne] at hC
      simpa using hC
  · refine List.Pairwise.sublist ?_ hsorted
    exact (List.take_sublist _ _).trans (List.drop_sublist _ _)
  · exact List.length_take_le _ _
  · have hcomm : orderById (db.cards.filter (passesFilters pt st ns)) =
        (orderById db.cards).filter (passesFilters pt st ns) := by
      refine eq_of_perm_of_pairwise_lt _ _ ?_ hsorted ?_
      · exact (orderById_perm _).trans
          ((orderById_perm db.cards).filter (passesFilters pt st ns)).symm
      · refine List.Pairwise.filter _ ?_
        refine pairwise_lt_of_le_nodup _ (orderById_pairwise _) ?_
        exact (List.Perm.nodup_iff
          ((orderById_perm db.cards).map (fun c => c.id))).mpr hnd
    unfold list_cards
    rw [hcomm]
  · intro s hns hwild nm
    exact ilikeTest_eq_claimed s nm (pyLower_no_wildcards hwild)

/-- Witness for the amended C6: listing with `primary_type=fire` and
`name_search="fir"` over the two-card table — "Firefly" is returned and
satisfies the filters; the result is id-ascending with at most 20 rows;
and "fir" (wildcard-free) filters exactly as a case-insensitive substring
match. -/
theorem c6_list_cards_amended_witness :
    fireflyCard.primary_type = CardType.fire ∧
    ilikeTest "fir" fireflyCard.name = true ∧
    (list_cards fireDB 20 0 (some CardType.fire) Option.none
      (some "fir")).Pairwise (fun a b => a.id < b.id) ∧
    (list_cards fireDB 20 0 (some CardType.fire) Option.none
      (some "fir")).length ≤ 20 ∧
    ilikeTest "fir" "Bonfire" = claimedNameFilter "fir" "Bonfire" :=
  ⟨((c6_list_cards_amended fireDB 20 0 (some CardType.fire) Option.none
      (some "fir") (by decide)).1 fireflyCard (by decide)).2.1
      CardType.fire rfl,
   ((c6_list_cards_amended fireDB 20 0 (some CardType.fire) Option.none
      (some "fir") (by decide)).1 fireflyCard (by decide)).2.2.2
      "fir" rfl (by decide),
   (c6_list_cards_amended fireDB 20 0 (some CardType.fire) Option.none
      (some "fir") (by decide)).2.1,
   (c6_list_cards_amended fireDB 20 0 (some CardType.fire) Option.none
      (some "fir") (by decide)).2.2.1,
   (c6_list_cards_amended fireDB 20 0 (some CardType.fire) Option.none
      (some "fir") (by decide)).2.2.2.2 "fir" rfl (by decide) "Bonfire"⟩
